import Mathlib

/-!
Shallow embedding of the quote-request pipeline of `discord-price-ticker`
(src/quote/req_consumer.rs, src/quote/request.rs, src/quote/response.rs,
src/quote/error.rs, and the producer loop in src/main.rs).

The remote HTTP call and the JSON parser are external libraries; each retry
attempt's interaction with them is modelled as an input (`AttemptInput`)
describing the outcome the libraries report, and the consumer's control flow
over those outcomes is embedded faithfully from the source.
-/

namespace CryptoTicker

/-- JSON values as seen through the serde_json API surface the consumer uses.
Numbers carry their raw decimal token, matching serde_json's
arbitrary-precision representation required by `Number::as_str()`
(req_consumer.rs line 106). -/
inductive Json where
  | null : Json
  | jbool : Bool → Json
  | num : String → Json
  | str : String → Json
  | arr : List Json → Json
  | obj : List (String × Json) → Json

/-- Value.as_object: Some fields when the value is an object. -/
def Json.asObject : Json → Option (List (String × Json))
  | .obj fields => some fields
  | _ => none

/-- Value.is_object. -/
def Json.isObject : Json → Bool
  | .obj _ => true
  | _ => false

/-- Map::contains_key on a JSON object's field list. -/
def containsKey (fields : List (String × Json)) (k : String) : Bool :=
  fields.any (fun p => p.1 == k)

/-- Indexing a JSON object by key; total with `Json.null` as default, which is
only ever used behind a contains_key guard, mirroring the source where every
`price_json[..]` is short-circuit-guarded by `contains_key`. -/
def lookupJson (fields : List (String × Json)) (k : String) : Json :=
  match fields.find? (fun p => p.1 == k) with
  | some p => p.2
  | none => Json.null

/-- Value.as_number, yielding the raw decimal token of a JSON number. -/
def Json.asNumberToken : Json → Option String
  | .num s => some s
  | _ => none

/-- Value.as_f64. No claim depends on binary floating-point arithmetic, so the
f64 is modelled by the decimal token it was converted from; conversion of a
JSON number token to f64 never fails, and a non-number value yields None. -/
def Json.asF64Token : Json → Option String
  | .num s => some s
  | _ => none

/-- Arbitrary-precision decimal, mirroring bigdecimal::BigDecimal:
the value is intVal * 10 ^ (-scale). -/
structure BigDecimal where
  intVal : Int
  scale : Int
  deriving DecidableEq, Repr

/-- Digits of a character list read as a base-10 natural number. -/
def digitsToNat (cs : List Char) : Nat :=
  cs.foldl (fun acc c => acc * 10 + (c.toNat - 48)) 0

/-- Split a character list at the first character satisfying p; the second
component is none when no such character occurs. -/
def splitAtChar (p : Char → Bool) : List Char → List Char × Option (List Char)
  | [] => ([], none)
  | c :: rest =>
    if p c then ([], some rest)
    else
      let r := splitAtChar p rest
      (c :: r.1, r.2)

/-- Strip a leading sign, returning (sign, rest): -1 for a minus, 1 otherwise. -/
def stripSign : List Char → Int × List Char
  | '-' :: rest => (-1, rest)
  | '+' :: rest => (1, rest)
  | cs => (1, cs)

/-- Parse a signed decimal-digit string to an integer exponent. -/
def parseExponent (cs : List Char) : Except String Int :=
  let sr := stripSign cs
  if sr.2.isEmpty then .error "ParseBigDecimalError: empty exponent"
  else if sr.2.all Char.isDigit then .ok (sr.1 * (digitsToNat sr.2 : Int))
  else .error "ParseBigDecimalError: invalid digit in exponent"

/-- BigDecimal::from_str: optional sign, decimal digits with at most one
point, optional e/E exponent. The error carries a message standing for
bigdecimal::ParseBigDecimalError. -/
def BigDecimal.fromStr (s : String) : Except String BigDecimal :=
  let base := splitAtChar (fun c => c == 'e' || c == 'E') s.toList
  let expRes : Except String Int :=
    match base.2 with
    | none => .ok 0
    | some ecs => parseExponent ecs
  match expRes with
  | .error e => .error e
  | .ok exp =>
    let sr := stripSign base.1
    let parts := splitAtChar (fun c => c == '.') sr.2
    let intPart := parts.1
    let fracPart := (parts.2).getD []
    if !(intPart.all Char.isDigit) || !(fracPart.all Char.isDigit) then
      .error "ParseBigDecimalError: invalid digit"
    else if intPart.isEmpty && fracPart.isEmpty then
      .error "ParseBigDecimalError: empty string"
    else if (parts.2).isSome && ((parts.2).getD []).any (fun c => c == '.') then
      .error "ParseBigDecimalError: multiple decimal points"
    else
      .ok { intVal := sr.1 * (digitsToNat (intPart ++ fracPart) : Int)
            scale := (fracPart.length : Int) - exp }

/-- Display for BigDecimal: plain decimal notation, inserting the point per
the scale, as the bigdecimal crate renders it. -/
def BigDecimal.render (d : BigDecimal) : String :=
  let sign := if d.intVal < 0 then "-" else ""
  let digits := toString d.intVal.natAbs
  if d.scale ≤ 0 then
    sign ++ digits ++ String.mk (List.replicate (-d.scale).toNat '0')
  else
    let s := d.scale.toNat
    let n := digits.length
    if s < n then
      sign ++ digits.take (n - s) ++ "." ++ digits.drop (n - s)
    else
      sign ++ "0." ++ String.mk (List.replicate (s - n) '0') ++ digits

/-- QuoteRequestError (src/quote/error.rs): the four variants, each wrapped
library error modelled by its message string. -/
inductive QuoteRequestError where
  | HttpRequest : String → QuoteRequestError
  | JsonParse : String → QuoteRequestError
  | ParseBigDecimal : String → QuoteRequestError
  | Other : String → QuoteRequestError
  deriving DecidableEq, Repr

/-- AssetQuoteResponse (src/quote/response.rs). price_change_24h is an f64 in
the source; it is modelled by the decimal token it was converted from, since
no claim depends on float arithmetic. -/
structure AssetQuoteResponse where
  name : String
  price_usd : BigDecimal
  price_change_24h : String
  deriving DecidableEq, Repr

/-- AssetQuoteResponse::dummy(): the placeholder initialising the consumer's
result variable. -/
def AssetQuoteResponse.dummy : AssetQuoteResponse :=
  { name := "dummy"
    price_usd := (BigDecimal.fromStr "-99999.00").toOption.getD ⟨0, 0⟩
    price_change_24h := "-999.0" }

/-- AssetQuoteRequest (src/quote/request.rs). The resp_sender is a clone of a
tokio unbounded-mpsc sender; channel identity is modelled by a number. -/
structure AssetQuoteRequest where
  name : String
  vs_currency : String
  resp_sender : Nat
  deriving DecidableEq, Repr

/-- Outcome of one attempt's interaction with the HTTP client and the body
reader, as the consumer observes it (req_consumer.rs lines 40-66):
the send() call may fail, response.text() may fail, and the body may fail
JSON parsing or parse to a value. -/
inductive AttemptInput where
  | sendErr : String → AttemptInput
  | textErr : AttemptInput
  | malformedBody : String → AttemptInput
  | body : Json → AttemptInput

/-- Result of one iteration of the consumer's retry loop body:
a retryable failure (followed in the source by retry_count -= 1 and a
1-second sleep), a fully parsed success (followed by break), or a panic of
the consumer task at one of the unwrap() calls. -/
inductive AttemptResult where
  | failure : QuoteRequestError → AttemptResult
  | success : AssetQuoteResponse → AttemptResult
  | panicked : String → AttemptResult
  deriving DecidableEq, Repr

/-- One iteration of the retry-loop body of consume_crypto_price_requests
(req_consumer.rs lines 29-136), faithful to the source's control flow:
- send() error: retryable HttpRequest failure;
- response.text() error: `.unwrap()` panics the task;
- serde_json parse error: retryable JsonParse failure;
- a body that parses but is not a JSON object: `as_object().unwrap()`
  panics the task (line 67);
- asset key absent or its value not an object: retryable Other failure;
- literal keys "usd" / "usd_24h_change" absent: retryable Other failure;
- "usd" value not a Number: retryable Other failure;
- BigDecimal::from_str failure on the "usd" token: retryable
  ParseBigDecimal failure;
- "usd_24h_change" not convertible by as_f64: retryable Other failure;
- otherwise success carrying the request's name and the parsed fields. -/
def parseAttempt (req : AssetQuoteRequest) (inp : AttemptInput) : AttemptResult :=
  match inp with
  | .sendErr e => .failure (.HttpRequest e)
  | .textErr => .panicked "called unwrap on an Err value: response.text() failed"
  | .malformedBody e => .failure (.JsonParse e)
  | .body v =>
    match v.asObject with
    | none => .panicked "called unwrap on a None value: body is not a JSON object"
    | some price_json =>
      if !(containsKey price_json req.name) || !(lookupJson price_json req.name).isObject then
        .failure (.Other "missing id of the API response, or is not an object")
      else
        let target := (lookupJson price_json req.name).asObject.getD []
        if !(containsKey target "usd") || !(containsKey target "usd_24h_change") then
          .failure (.Other "missing `usd` and/or `usd_24h_change` field(s) in the API response")
        else
          match (lookupJson target "usd").asNumberToken with
          | none => .failure (.Other "cannot parse USD price as Number from the API response")
          | some priceTok =>
            match BigDecimal.fromStr priceTok with
            | .error e => .failure (.ParseBigDecimal e)
            | .ok price_usd =>
              match (lookupJson target "usd_24h_change").asF64Token with
              | none => .failure (.Other "cannot parse 24h change as f64 from the API response")
              | some changeTok =>
                .success { name := req.name, price_usd := price_usd,
                           price_change_24h := changeTok }

instance {ε α : Type} [DecidableEq ε] [DecidableEq α] : DecidableEq (Except ε α) :=
  fun a b =>
    match a, b with
    | .error e, .error f =>
      if h : e = f then .isTrue (by rw [h]) else .isFalse (by simp [h])
    | .error _, .ok _ => .isFalse (by simp)
    | .ok _, .error _ => .isFalse (by simp)
    | .ok x, .ok y =>
      if h : x = y then .isTrue (by rw [h]) else .isFalse (by simp [h])

/-- Observable events of the consumer's processing of one request: an
outbound attempt (indexed from 0), a sleep of n seconds, the single send on
the request's response channel, or a panic of the task. -/
inductive TraceEvent where
  | attempt : Nat → TraceEvent
  | sleepSecs : Nat → TraceEvent
  | send : Except QuoteRequestError AssetQuoteResponse → TraceEvent
  | panicEvt : String → TraceEvent
  deriving DecidableEq, Repr

/-- State at exit of the retry loop: the remaining retry_count, the err
variable, and the result variable. -/
structure LoopExitState where
  retry_count : Nat
  errVar : QuoteRequestError
  resultVar : AssetQuoteResponse
  deriving DecidableEq, Repr

/-- The while-loop of req_consumer.rs lines 29-136, run with the outcome of
attempt number i given by inputs i. Returns the events performed and, unless
the task panicked, the loop-exit state. Structural recursion on retry_count
mirrors `while retry_count > 0` with `retry_count -= 1` on each failure. -/
def runRetryLoop (req : AssetQuoteRequest) (inputs : Nat → AttemptInput) :
    Nat → Nat → QuoteRequestError → AssetQuoteResponse →
    List TraceEvent × Option LoopExitState
  | 0, _, errVar, resultVar => ([], some ⟨0, errVar, resultVar⟩)
  | rc + 1, i, errVar, resultVar =>
    match parseAttempt req (inputs i) with
    | .panicked m => ([.attempt i, .panicEvt m], none)
    | .failure e =>
      let rest := runRetryLoop req inputs rc (i + 1) e resultVar
      (.attempt i :: .sleepSecs 1 :: rest.1, rest.2)
    | .success r => ([.attempt i], some ⟨rc + 1, errVar, r⟩)

/-- The message sent after the loop (req_consumer.rs lines 138-154):
Err(err) when retry_count <= 0, otherwise Ok(result). -/
def afterLoopSend (s : LoopExitState) : Except QuoteRequestError AssetQuoteResponse :=
  if s.retry_count = 0 then .error s.errVar else .ok s.resultVar

/-- Full event trace of the consumer's processing of one request:
retry_count starts at 3, err at Other("No Error"), result at dummy; after a
normal loop exit exactly one send is performed on the response channel. -/
def consumeRequestTrace (req : AssetQuoteRequest) (inputs : Nat → AttemptInput) :
    List TraceEvent :=
  match runRetryLoop req inputs 3 0 (.Other "No Error") AssetQuoteResponse.dummy with
  | (tr, none) => tr
  | (tr, some s) => tr ++ [.send (afterLoopSend s)]

/-- The value the consumer sends on the request's response channel, or none
when the task panicked before sending. -/
def consumeRequest (req : AssetQuoteRequest) (inputs : Nat → AttemptInput) :
    Option (Except QuoteRequestError AssetQuoteResponse) :=
  match runRetryLoop req inputs 3 0 (.Other "No Error") AssetQuoteResponse.dummy with
  | (_, none) => none
  | (_, some s) => some (afterLoopSend s)

/-- The URL built per request (req_consumer.rs line 23). -/
def requestUrl (name vs_currency : String) : String :=
  "https://api.coingecko.com/api/v3/simple/price?ids=" ++ name ++
    "&vs_currencies=" ++ vs_currency ++ "&include_24hr_change=true"

/-- Headers attached to the outbound pricing-service call
(req_consumer.rs lines 35-38): both headers are attached unconditionally,
the API-key header carrying whatever string the configuration supplied. -/
def buildPriceCallHeaders (api_key : String) : List (String × String) :=
  [("Accept", "application/json"), ("x-cg-demo-api-key", api_key)]

/-- Spec section 7 error taxonomy. -/
inductive SpecErrorKind where
  | TransportFailure : SpecErrorKind
  | MalformedResponse : SpecErrorKind
  | MissingField : SpecErrorKind
  | UnparseablePrice : SpecErrorKind
  | UnparseableChange : SpecErrorKind
  | Internal : SpecErrorKind
  deriving DecidableEq, Repr

/-- Classification of the code's QuoteRequestError values into the spec's
taxonomy: the wrapped-library variants map directly, and the Other variant is
classified by the exact message strings the consumer uses. -/
def specKindOf : QuoteRequestError → Option SpecErrorKind
  | .HttpRequest _ => some .TransportFailure
  | .JsonParse _ => some .MalformedResponse
  | .ParseBigDecimal _ => some .UnparseablePrice
  | .Other s =>
    if s = "No Error" then some .Internal
    else if s = "missing id of the API response, or is not an object" then
      some .MissingField
    else if s = "missing `usd` and/or `usd_24h_change` field(s) in the API response" then
      some .MissingField
    else if s = "cannot parse USD price as Number from the API response" then
      some .UnparseablePrice
    else if s = "cannot parse 24h change as f64 from the API response" then
      some .UnparseableChange
    else none

/-- TickerConfig fields the producer loop reads (src/config.rs via main.rs). -/
structure TickerConfig where
  name : String
  ticker : String
  frequency : Nat
  decimals : Nat
  deriving DecidableEq, Repr

/-- The response channel of one producer, allocated by
mpsc::unbounded_channel() at main.rs line 73, once, before the loop starts;
channel identity is modelled by a number. -/
structure PriceChannel where
  chanId : Nat
  deriving DecidableEq, Repr

/-- The AssetQuoteRequest built at main.rs lines 85-89 on iteration i of the
producer loop: name from the config, hardcoded "usd" currency, and
resp_sender a clone of the sender of the one channel allocated before the
loop — the same channel on every iteration, so the built value does not
depend on i. -/
def producerRequestAt (cfg : TickerConfig) (chan : PriceChannel) (_i : Nat) :
    AssetQuoteRequest :=
  { name := cfg.name, vs_currency := "usd", resp_sender := chan.chanId }

/-- What the producer observes when awaiting its response
(main.rs lines 99-120): recv() returns None when the channel is closed, or
the one value sent by the consumer. -/
inductive AwaitOutcome where
  | chanClosed : AwaitOutcome
  | valueArrived : Except QuoteRequestError AssetQuoteResponse → AwaitOutcome

/-- How one iteration of the producer loop ends. -/
inductive LoopNext where
  | stop : LoopNext
  | nextIterNoDelay : LoopNext
  | nextIterAfterSleep : Nat → LoopNext
  | nextIterAfterIntervalWait : Nat → LoopNext
  deriving DecidableEq, Repr

/-- One iteration of run_periodic_crypto_fetch_job_loop (main.rs lines
75-160), faithful to the source's control flow. stopAtTop, stopAfterFormat
and stopAfterPublish model break_if_signaled observing a non-empty try_recv
(signal fired or sender dropped); queueSendFailed models job_sender.send
returning Err; stopDuringWait models the stop signal winning the
timeout(tick_duration, stop_signal) race. On chanClosed the loop continues
with no delay; on an Err value it sleeps one full interval and continues;
on an Ok value it formats and publishes (fire-and-forget, between the two
signal checks) and then waits out the interval. -/
def producerIteration (tickSecs : Nat) (stopAtTop : Bool) (queueSendFailed : Bool)
    (await : AwaitOutcome) (stopAfterFormat : Bool) (stopAfterPublish : Bool)
    (stopDuringWait : Bool) : LoopNext :=
  if stopAtTop then .stop
  else if queueSendFailed then .stop
  else
    match await with
    | .chanClosed => .nextIterNoDelay
    | .valueArrived (.error _) => .nextIterAfterSleep tickSecs
    | .valueArrived (.ok _) =>
      if stopAfterFormat then .stop
      else if stopAfterPublish then .stop
      else if stopDuringWait then .stop
      else .nextIterAfterIntervalWait tickSecs

/-! Fixtures: the request and bodies of the concrete scenarios in the spec. -/

/-- The request for asset id bitcoin with quote currency usd. -/
def bitcoinReq : AssetQuoteRequest := ⟨"bitcoin", "usd", 0⟩

/-- Body of the fully-parseable scenario, with the high-precision price of
spec property P4. -/
def goodBody : Json :=
  .obj [("bitcoin", .obj [("usd", .num "65761.123456789012"),
                          ("usd_24h_change", .num "1.884")])]

/-- Body of spec property P5: price present, change field absent. -/
def noChangeBody : Json := .obj [("bitcoin", .obj [("usd", .num "100")])]

/-! Helper lemmas about the retry loop and the attempt parser. -/

/-- A successful attempt always carries the name of the request. -/
theorem parseAttempt_success_name (req : AssetQuoteRequest) (inp : AttemptInput)
    (r : AssetQuoteResponse) (h : parseAttempt req inp = .success r) :
    r.name = req.name := by
  cases inp with
  | sendErr s => simp [parseAttempt] at h
  | textErr => simp [parseAttempt] at h
  | malformedBody s => simp [parseAttempt] at h
  | body v =>
    simp only [parseAttempt] at h
    repeat' split at h
    all_goals (try simp at h)
    all_goals (subst h; rfl)

/-- Every retryable failure the attempt parser produces is classified by
the spec taxonomy. -/
theorem parseAttempt_failure_kind (req : AssetQuoteRequest) (inp : AttemptInput)
    (e : QuoteRequestError) (h : parseAttempt req inp = .failure e) :
    (specKindOf e).isSome := by
  cases inp with
  | sendErr s => injection h with h2; subst h2; rfl
  | textErr => simp [parseAttempt] at h
  | malformedBody s => injection h with h2; subst h2; rfl
  | body v =>
    simp only [parseAttempt] at h
    repeat' split at h
    all_goals (try simp at h)
    all_goals (subst h; rfl)

/-- If no attempt panics, the retry loop reaches a normal exit state. -/
theorem runRetryLoop_no_panic (req : AssetQuoteRequest) (inputs : Nat → AttemptInput)
    (h : ∀ i m, parseAttempt req (inputs i) ≠ .panicked m) :
    ∀ rc i errVar resultVar, ∃ s,
      (runRetryLoop req inputs rc i errVar resultVar).2 = some s := by
  intro rc
  induction rc with
  | zero => intro i errVar resultVar; exact ⟨⟨0, errVar, resultVar⟩, rfl⟩
  | succ rc ih =>
    intro i errVar resultVar
    rcases hp : parseAttempt req (inputs i) with e | r | m
    · rcases ih (i + 1) e resultVar with ⟨s, hs⟩
      exact ⟨s, by simp [runRetryLoop, hp, hs]⟩
    · exact ⟨⟨rc + 1, errVar, r⟩, by simp [runRetryLoop, hp]⟩
    · exact absurd hp (h i m)

/-- If the loop exits with retry budget left, the result variable was
assigned from a successful attempt inside the loop. -/
theorem runRetryLoop_ok_provenance (req : AssetQuoteRequest) (inputs : Nat → AttemptInput) :
    ∀ rc i errVar resultVar tr s,
      runRetryLoop req inputs rc i errVar resultVar = (tr, some s) →
      s.retry_count ≠ 0 →
      ∃ j, i ≤ j ∧ j < i + rc ∧ parseAttempt req (inputs j) = .success s.resultVar := by
  intro rc
  induction rc with
  | zero =>
    intro i errVar resultVar tr s hrun hcount
    simp [runRetryLoop] at hrun
    rcases hrun with ⟨-, hs⟩
    rw [← hs] at hcount
    simp at hcount
  | succ rc ih =>
    intro i errVar resultVar tr s hrun hcount
    rcases hp : parseAttempt req (inputs i) with e | r | m <;> rw [runRetryLoop] at hrun <;>
      rw [hp] at hrun <;> simp at hrun
    · rcases hrun with ⟨-, hrest⟩
      have hpair : runRetryLoop req inputs rc (i + 1) e resultVar =
          ((runRetryLoop req inputs rc (i + 1) e resultVar).1, some s) := by
        rw [← hrest]
      rcases ih (i + 1) e resultVar _ s hpair hcount with ⟨j, hj1, hj2, hj3⟩
      exact ⟨j, by omega, by omega, hj3⟩
    · rcases hrun with ⟨-, hs⟩
      refine ⟨i, le_refl i, by omega, ?_⟩
      rw [hp, ← hs]

/-- The err variable at loop exit is always spec-classifiable, provided the
initial value is. -/
theorem runRetryLoop_err_kind (req : AssetQuoteRequest) (inputs : Nat → AttemptInput) :
    ∀ rc i errVar resultVar tr s,
      runRetryLoop req inputs rc i errVar resultVar = (tr, some s) →
      (specKindOf errVar).isSome →
      (specKindOf s.errVar).isSome := by
  intro rc
  induction rc with
  | zero =>
    intro i errVar resultVar tr s hrun hkind
    simp [runRetryLoop] at hrun
    rcases hrun with ⟨-, hs⟩
    rw [← hs]
    exact hkind
  | succ rc ih =>
    intro i errVar resultVar tr s hrun hkind
    rcases hp : parseAttempt req (inputs i) with e | r | m <;> rw [runRetryLoop] at hrun <;>
      rw [hp] at hrun <;> simp at hrun
    · rcases hrun with ⟨-, hrest⟩
      have hpair : runRetryLoop req inputs rc (i + 1) e resultVar =
          ((runRetryLoop req inputs rc (i + 1) e resultVar).1, some s) := by
        rw [← hrest]
      exact ih (i + 1) e resultVar _ s hpair (parseAttempt_failure_kind req (inputs i) e hp)
    · rcases hrun with ⟨-, hs⟩
      rw [← hs]
      exact hkind

/-! Claim theorems. -/

/-- C1, counterexample: on a request whose every attempt returns a body that
is valid JSON but not a JSON object, the per-request processing does not
deliver a result and does not record a retryable failure: the task panics at
the as_object().unwrap() call on the first attempt, refuting the claim that
processing never panics for every possible response body. -/
theorem consumer_panics_on_non_object_json_body :
    consumeRequestTrace bitcoinReq (fun _ => .body (.arr [])) =
      [.attempt 0, .panicEvt "called unwrap on a None value: body is not a JSON object"] ∧
    consumeRequest bitcoinReq (fun _ => .body (.arr [])) = none :=
  ⟨rfl, rfl⟩

/-- C1 (amended): for every QuoteRequest and every sequence of attempt
outcomes in which no attempt hits an unwrap panic (the body text is readable
and the body either fails JSON parsing or parses to a JSON object), the
per-request processing either delivers a result or records a retryable
failure and continues, and its trace ends with exactly one send on the
response channel; a valid-JSON non-object body or an unreadable body text
instead panics the consumer task. -/
theorem consumer_delivers_unless_unwrap_panics (req : AssetQuoteRequest)
    (inputs : Nat → AttemptInput)
    (h : ∀ i m, parseAttempt req (inputs i) ≠ .panicked m) :
    ∃ tr msg, consumeRequestTrace req inputs = tr ++ [.send msg] ∧
      consumeRequest req inputs = some msg := by
  obtain ⟨s, hs⟩ := runRetryLoop_no_panic req inputs h 3 0 (.Other "No Error")
    AssetQuoteResponse.dummy
  rcases hrun : runRetryLoop req inputs 3 0 (.Other "No Error") AssetQuoteResponse.dummy
    with ⟨tr0, o⟩
  rw [hrun] at hs
  simp at hs
  subst hs
  exact ⟨tr0, afterLoopSend s, by simp [consumeRequestTrace, hrun],
    by simp [consumeRequest, hrun]⟩

/-- C1 witness: a request whose every attempt fails at the transport level
is delivered a result. -/
theorem consumer_delivers_unless_unwrap_panics_witness :
    ∃ tr msg,
      consumeRequestTrace bitcoinReq (fun _ => .sendErr "connection refused") =
        tr ++ [.send msg] ∧
      consumeRequest bitcoinReq (fun _ => .sendErr "connection refused") = some msg :=
  consumer_delivers_unless_unwrap_panics bitcoinReq (fun _ => .sendErr "connection refused")
    (by intro i m hp; simp [parseAttempt] at hp)

/-- C2, counterexample: the requests built on iterations 0 and 1 of the same
producer loop both carry the sender of channel 7, the one channel allocated
before the loop — two distinct QuoteRequests sharing one Response Channel,
refuting per-request fresh allocation. -/
theorem requests_share_producer_channel :
    (producerRequestAt ⟨"bitcoin", "BTC", 60, 2⟩ ⟨7⟩ 0).resp_sender = 7 ∧
    (producerRequestAt ⟨"bitcoin", "BTC", 60, 2⟩ ⟨7⟩ 1).resp_sender = 7 :=
  ⟨rfl, rfl⟩

/-- C2 (amended): every QuoteRequest a Producer builds carries a clone of
the sender of the single Response Channel that the Producer allocated once
before entering its loop; requests of any two iterations of the same
Producer are identical, channel included. -/
theorem producer_requests_use_single_preallocated_channel (cfg : TickerConfig)
    (chan : PriceChannel) (i j : Nat) :
    (producerRequestAt cfg chan i).resp_sender = chan.chanId ∧
    producerRequestAt cfg chan i = producerRequestAt cfg chan j :=
  ⟨rfl, rfl⟩

/-- C3: when every attempt fails with a retryable error, the consumer makes
exactly 3 attempts, sleeps 1 second after each, and sends exactly one Err
carrying the error of the last (third) attempt. -/
theorem retry_exhaustion_three_attempts_last_error (req : AssetQuoteRequest)
    (inputs : Nat → AttemptInput) (es : Nat → QuoteRequestError)
    (h : ∀ i, parseAttempt req (inputs i) = .failure (es i)) :
    consumeRequestTrace req inputs =
      [.attempt 0, .sleepSecs 1, .attempt 1, .sleepSecs 1, .attempt 2, .sleepSecs 1,
       .send (.error (es 2))] ∧
    consumeRequest req inputs = some (.error (es 2)) := by
  constructor <;>
    simp [consumeRequestTrace, consumeRequest, runRetryLoop, h 0, h 1, h 2, afterLoopSend]

/-- C3 witness: attempts failing with distinct transport errors end in an
Err carrying the error of attempt 2, the last one. -/
theorem retry_exhaustion_three_attempts_last_error_witness :
    consumeRequestTrace bitcoinReq (fun i => .sendErr (toString i)) =
      [.attempt 0, .sleepSecs 1, .attempt 1, .sleepSecs 1, .attempt 2, .sleepSecs 1,
       .send (.error (.HttpRequest "2"))] ∧
    consumeRequest bitcoinReq (fun i => .sendErr (toString i)) =
      some (.error (.HttpRequest "2")) :=
  retry_exhaustion_three_attempts_last_error bitcoinReq (fun i => .sendErr (toString i))
    (fun i => .HttpRequest (toString i)) (fun _ => rfl)

/-- C6, counterexample: with the configured API key the empty string, the
outbound call still carries the x-cg-demo-api-key header (with an empty
value), refuting the claim that an empty key sends the call without any
auth header. -/
theorem api_key_header_sent_when_empty :
    buildPriceCallHeaders "" = [("Accept", "application/json"), ("x-cg-demo-api-key", "")] ∧
    ("x-cg-demo-api-key", "") ∈ buildPriceCallHeaders "" :=
  ⟨rfl, by simp [buildPriceCallHeaders]⟩

/-- C6 (amended): for every configured API key, empty or not, the outbound
pricing-service call is made with the Accept header and with the
x-cg-demo-api-key header carrying exactly the configured key. -/
theorem headers_always_include_accept_and_api_key (api_key : String) :
    buildPriceCallHeaders api_key =
      [("Accept", "application/json"), ("x-cg-demo-api-key", api_key)] ∧
    ("x-cg-demo-api-key", api_key) ∈ buildPriceCallHeaders api_key :=
  ⟨rfl, by simp [buildPriceCallHeaders]⟩

/-- C9: when the producer is not signalled to stop and its queue send
succeeded, a closed response channel makes it re-enter the cycle with no
delay while a delivered Err makes it sleep one full configured interval
first; neither case stops the producer loop. -/
theorem producer_continues_on_closed_channel_and_sleeps_on_error (tickSecs : Nat)
    (e : QuoteRequestError) (b1 b2 b3 : Bool) :
    producerIteration tickSecs false false .chanClosed b1 b2 b3 = .nextIterNoDelay ∧
    producerIteration tickSecs false false (.valueArrived (.error e)) b1 b2 b3 =
      .nextIterAfterSleep tickSecs ∧
    producerIteration tickSecs false false .chanClosed b1 b2 b3 ≠ .stop ∧
    producerIteration tickSecs false false (.valueArrived (.error e)) b1 b2 b3 ≠ .stop := by
  refine ⟨rfl, rfl, ?_, ?_⟩ <;> simp [producerIteration]

/-- C4, counterexample: for a request with quote currency eur and a response
whose asset object carries both the "eur" and "eur_24h_change" keys, the
attempt still fails with the missing-field error, because the consumer reads
the literal keys "usd" and "usd_24h_change" rather than keys derived from
the quote currency of the request. -/
theorem parsing_ignores_request_currency :
    containsKey [("eur", Json.num "100"), ("eur_24h_change", Json.num "1.0")] "eur" = true ∧
    containsKey [("eur", Json.num "100"), ("eur_24h_change", Json.num "1.0")]
      "eur_24h_change" = true ∧
    parseAttempt ⟨"bitcoin", "eur", 0⟩
      (.body (.obj [("bitcoin",
        .obj [("eur", .num "100"), ("eur_24h_change", .num "1.0")])])) =
      .failure (.Other "missing `usd` and/or `usd_24h_change` field(s) in the API response") :=
  ⟨rfl, rfl, rfl⟩

/-- C4 (amended): for every request, whatever its quote currency, once the
body is a JSON object whose entry under the asset identifier is an object,
the attempt fails with the missing-field error exactly when the literal key
"usd" or the literal key "usd_24h_change" is absent from that object. -/
theorem missing_field_error_iff_usd_keys_absent (req : AssetQuoteRequest)
    (fields inner : List (String × Json))
    (hmem : containsKey fields req.name = true)
    (hobj : lookupJson fields req.name = .obj inner) :
    (parseAttempt req (.body (.obj fields)) =
        .failure (.Other "missing `usd` and/or `usd_24h_change` field(s) in the API response")) ↔
      ¬(containsKey inner "usd" = true ∧ containsKey inner "usd_24h_change" = true) := by
  simp only [parseAttempt, Json.asObject, hmem, hobj, Json.isObject]
  by_cases h1 : containsKey inner "usd" = true
  · by_cases h2 : containsKey inner "usd_24h_change" = true
    · simp only [h1, h2, Bool.not_true, Bool.or_self, Bool.false_or, if_false]
      rcases hnum : (lookupJson inner "usd").asNumberToken with _ | tok
      · simp [hnum, h1, h2]
      · rcases hbd : BigDecimal.fromStr tok with e | d
        · simp [hnum, hbd, h1, h2]
        · rcases hf : (lookupJson inner "usd_24h_change").asF64Token with _ | ctok
          · simp [hnum, hbd, hf, h1, h2]
          · simp [hnum, hbd, hf, h1, h2]
    · simp [h1, h2]
  · simp [h1]

/-- C4 witness: at the body of spec property P5, whose asset object has
"usd" but lacks "usd_24h_change", the equivalence holds concretely. -/
theorem missing_field_error_iff_usd_keys_absent_witness :
    (parseAttempt bitcoinReq
        (.body (.obj [("bitcoin", .obj [("usd", .num "100")])])) =
        .failure (.Other "missing `usd` and/or `usd_24h_change` field(s) in the API response")) ↔
      ¬(containsKey [("usd", Json.num "100")] "usd" = true ∧
        containsKey [("usd", Json.num "100")] "usd_24h_change" = true) :=
  missing_field_error_iff_usd_keys_absent bitcoinReq
    [("bitcoin", .obj [("usd", .num "100")])] [("usd", Json.num "100")] rfl rfl

/-- C5: every error value the consumer can deliver falls in the closed spec
taxonomy of TransportFailure, MalformedResponse, MissingField,
UnparseablePrice, UnparseableChange and Internal; and for the bitcoin request
answered every time by a body whose asset object has "usd" but no
"usd_24h_change", each attempt fails with the error classified MissingField
and after exhaustion that same error is delivered as Err. -/
theorem quote_error_taxonomy_closed_and_missing_field_case :
    (∀ req inputs e, consumeRequest req inputs = some (.error e) →
      ∃ k, specKindOf e = some k) ∧
    parseAttempt bitcoinReq (.body noChangeBody) =
      .failure (.Other "missing `usd` and/or `usd_24h_change` field(s) in the API response") ∧
    specKindOf (.Other "missing `usd` and/or `usd_24h_change` field(s) in the API response") =
      some .MissingField ∧
    consumeRequest bitcoinReq (fun _ => .body noChangeBody) =
      some (.error
        (.Other "missing `usd` and/or `usd_24h_change` field(s) in the API response")) := by
  refine ⟨?_, rfl, rfl, rfl⟩
  intro req inputs e hdel
  rcases hrun : runRetryLoop req inputs 3 0 (.Other "No Error") AssetQuoteResponse.dummy
    with ⟨tr0, o⟩
  simp [consumeRequest, hrun] at hdel
  cases o with
  | none => simp at hdel
  | some s =>
    simp only [afterLoopSend, Option.some.injEq] at hdel
    have hk := runRetryLoop_err_kind req inputs 3 0 (.Other "No Error")
      AssetQuoteResponse.dummy tr0 s hrun (by decide)
    split at hdel
    · simp only [Except.error.injEq] at hdel
      rw [← hdel]
      exact Option.isSome_iff_exists.mp hk
    · simp at hdel

/-- C5 witness: a delivered transport error is classified in the taxonomy. -/
theorem quote_error_taxonomy_closed_and_missing_field_case_witness :
    ∃ k, specKindOf (.HttpRequest "connection refused") = some k :=
  quote_error_taxonomy_closed_and_missing_field_case.1 bitcoinReq
    (fun _ => .sendErr "connection refused") (.HttpRequest "connection refused") rfl

/-- C7: when attempt 0 fails with a retryable error and attempt 1 parses
fully, the consumer makes no attempt after the success and sends exactly one
Ok carrying the response of the successful attempt, whose name is the
asset identifier of the request. -/
theorem early_success_stops_retrying (req : AssetQuoteRequest)
    (inputs : Nat → AttemptInput) (e : QuoteRequestError) (r : AssetQuoteResponse)
    (h0 : parseAttempt req (inputs 0) = .failure e)
    (h1 : parseAttempt req (inputs 1) = .success r) :
    consumeRequestTrace req inputs =
      [.attempt 0, .sleepSecs 1, .attempt 1, .send (.ok r)] ∧
    consumeRequest req inputs = some (.ok r) ∧
    r.name = req.name := by
  refine ⟨?_, ?_, parseAttempt_success_name req (inputs 1) r h1⟩ <;>
    simp [consumeRequestTrace, consumeRequest, runRetryLoop, h0, h1, afterLoopSend]

/-- C7 witness: a transport failure followed by the fully-parseable body
yields the Ok of the second attempt with no third attempt. -/
theorem early_success_stops_retrying_witness :
    consumeRequestTrace bitcoinReq
        (fun i => if i = 0 then .sendErr "boom" else .body goodBody) =
      [.attempt 0, .sleepSecs 1, .attempt 1,
       .send (.ok { name := "bitcoin", price_usd := ⟨65761123456789012, 12⟩,
                    price_change_24h := "1.884" })] ∧
    consumeRequest bitcoinReq
        (fun i => if i = 0 then .sendErr "boom" else .body goodBody) =
      some (.ok { name := "bitcoin", price_usd := ⟨65761123456789012, 12⟩,
                  price_change_24h := "1.884" }) ∧
    ({ name := "bitcoin", price_usd := ⟨65761123456789012, 12⟩,
       price_change_24h := "1.884" } : AssetQuoteResponse).name = bitcoinReq.name :=
  early_success_stops_retrying bitcoinReq
    (fun i => if i = 0 then .sendErr "boom" else .body goodBody)
    (.HttpRequest "boom") _ rfl rfl

/-- C8: the price of a delivered QuoteResponse is produced by
BigDecimal.fromStr on the raw decimal token of the JSON number, with no
float conversion in the model: for the price token 65761.123456789012 the
parsed BigDecimal renders back to the identical decimal string, and the
consumer delivers exactly that BigDecimal. -/
theorem price_parsed_as_big_decimal_roundtrip :
    BigDecimal.fromStr "65761.123456789012" = .ok ⟨65761123456789012, 12⟩ ∧
    BigDecimal.render ⟨65761123456789012, 12⟩ = "65761.123456789012" ∧
    consumeRequest bitcoinReq (fun _ => .body goodBody) =
      some (.ok { name := "bitcoin", price_usd := ⟨65761123456789012, 12⟩,
                  price_change_24h := "1.884" }) :=
  ⟨rfl, rfl, rfl⟩

/-- C10: whenever the consumer delivers Ok(r), r was assigned from a
successful parse of one of the at most 3 attempts of that request, and its
name equals the asset identifier of the request; in particular the dummy
placeholder initialising the result variable is never what is delivered,
since every delivered Ok value is overwritten by a parse first. -/
theorem ok_results_come_from_successful_parse_not_dummy (req : AssetQuoteRequest)
    (inputs : Nat → AttemptInput) (r : AssetQuoteResponse)
    (h : consumeRequest req inputs = some (.ok r)) :
    (∃ j, j < 3 ∧ parseAttempt req (inputs j) = .success r) ∧ r.name = req.name := by
  rcases hrun : runRetryLoop req inputs 3 0 (.Other "No Error") AssetQuoteResponse.dummy
    with ⟨tr0, o⟩
  simp [consumeRequest, hrun] at h
  cases o with
  | none => simp at h
  | some s =>
    simp only [afterLoopSend, Option.some.injEq] at h
    split at h
    · simp at h
    · rename_i hrc
      simp only [Except.ok.injEq] at h
      obtain ⟨j, hj0, hj1, hj2⟩ :=
        runRetryLoop_ok_provenance req inputs 3 0 (.Other "No Error")
          AssetQuoteResponse.dummy tr0 s hrun hrc
      rw [h] at hj2
      exact ⟨⟨j, by omega, hj2⟩, parseAttempt_success_name req (inputs j) r hj2⟩

/-- C10 witness: the Ok delivered for the fully-parseable body comes from a
successful parse and carries the name bitcoin. -/
theorem ok_results_come_from_successful_parse_not_dummy_witness :
    (∃ j, j < 3 ∧ parseAttempt bitcoinReq ((fun _ => AttemptInput.body goodBody) j) =
        .success { name := "bitcoin", price_usd := ⟨65761123456789012, 12⟩,
                   price_change_24h := "1.884" }) ∧
    ({ name := "bitcoin", price_usd := ⟨65761123456789012, 12⟩,
       price_change_24h := "1.884" } : AssetQuoteResponse).name = bitcoinReq.name :=
  ok_results_come_from_successful_parse_not_dummy bitcoinReq
    (fun _ => AttemptInput.body goodBody)
    { name := "bitcoin", price_usd := ⟨65761123456789012, 12⟩,
      price_change_24h := "1.884" } rfl

end CryptoTicker
